import Mathlib

/-!
Verification development for the danoo trading bot's decision core.

The Python source is shallowly embedded over `ℚ` (idealising IEEE doubles as
exact rationals).  `numpy`/`pandas` NaN cells are modelled as `none : Option ℚ`.
Fallible code (code paths that raise) is modelled with `Option`/`Except`.
Each definition names the source function it embeds
(`core/strategy_library.py`, `core/regime_engine.py`, `core/scalper_engine.py`,
`security/execution_validator.py`, `config/risk_config.py`).
-/

namespace Danoo

/-- `np.mean` / a single pandas rolling-mean cell: arithmetic mean of a list. -/
def mean (l : List ℚ) : ℚ := l.sum / (l.length : ℚ)

/-- The length-`n` window of `l` ending at index `i` (pandas rolling semantics). -/
def window (l : List ℚ) (n i : ℕ) : List ℚ := (l.take (i + 1)).drop (i + 1 - n)

/-- pandas `Series.rolling(n).agg f`: cell `i` is `f` of the window ending at `i`
once the window is full (`n ≤ i+1`), and NaN (`none`) before that. -/
def rollingApply (n : ℕ) (f : List ℚ → ℚ) (l : List ℚ) : List (Option ℚ) :=
  (List.range l.length).map fun i =>
    if n ≤ i + 1 then some (f (window l n i)) else none

/-- Rolling aggregation over a series that already contains NaN cells: a cell is
defined only when the window is full and every cell in it is defined
(a NaN inside a pandas rolling window makes the output cell NaN). -/
def rollingApplyO (n : ℕ) (f : List ℚ → ℚ) (l : List (Option ℚ)) : List (Option ℚ) :=
  (List.range l.length).map fun i =>
    let w := (l.take (i + 1)).drop (i + 1 - n)
    if n ≤ i + 1 ∧ w.all Option.isSome then some (f (w.filterMap id)) else none

/-- Elementwise binary arithmetic on NaN-carrying cells: NaN propagates. -/
def omap2 (f : ℚ → ℚ → ℚ) : Option ℚ → Option ℚ → Option ℚ
  | some a, some b => some (f a b)
  | _, _ => none

/-- `StrategyLibrary.calculate_sma` (strategy_library.py): short input yields an
all-NaN array, otherwise a rolling mean. -/
def calculate_sma (data : List ℚ) (period : ℕ) : List (Option ℚ) :=
  if data.length < period then List.replicate data.length none
  else rollingApply period mean data

/-- `StrategyLibrary.calculate_ema` (strategy_library.py): pandas
`ewm(span, adjust False)`, seeded by the first value; empty input yields the
empty array.  With `a = 2/(period+1)`: `y_0 = x_0`, `y_i = (1-a)*y_(i-1) + a*x_i`. -/
def calculate_ema (data : List ℚ) (period : ℕ) : List ℚ :=
  match data with
  | [] => []
  | x :: xs =>
    let a : ℚ := 2 / ((period : ℚ) + 1)
    xs.scanl (fun y v => (1 - a) * y + a * v) x

/-- pandas rolling standard deviation with `ddof` 0 (population std).  The real
code takes a square root; every consumer of this value in the repository only
compares widths with each other, so the square-root map is passed in as a
parameter `sq` (the true square root is one admissible instantiation). -/
def rollingStd (sq : ℚ → ℚ) (data : List ℚ) (period : ℕ) : List (Option ℚ) :=
  rollingApply period (fun w => sq ((w.map (fun x => (x - mean w) ^ 2)).sum / (w.length : ℚ))) data

structure BollingerBands where
  upper : List (Option ℚ)
  middle : List (Option ℚ)
  lower : List (Option ℚ)
  width : List (Option ℚ)

/-- `StrategyLibrary.calculate_bollinger_bands` (strategy_library.py):
`middle = SMA`, `upper/lower = middle ± std*k`, `width = upper - lower`,
NaN propagating elementwise. -/
def calculate_bollinger_bands (sq : ℚ → ℚ) (data : List ℚ) (period : ℕ) (std_dev : ℚ) :
    BollingerBands :=
  let middle := calculate_sma data period
  let std := rollingStd sq data period
  let upper := List.zipWith (omap2 fun m s => m + s * std_dev) middle std
  let lower := List.zipWith (omap2 fun m s => m - s * std_dev) middle std
  let width := List.zipWith (omap2 fun u l => u - l) upper lower
  ⟨upper, middle, lower, width⟩

/-- The true-range array of `calculate_atr`: `tr_0 = high_0 - low_0` (the code
overwrites index 0), `tr_i = max (high_i - low_i) (max |high_i - close_(i-1)| |low_i - close_(i-1)|)`. -/
def trueRange (high low close : List ℚ) : List ℚ :=
  (List.range high.length).map fun i =>
    if i = 0 then high.getD 0 0 - low.getD 0 0
    else
      max (high.getD i 0 - low.getD i 0)
        (max |high.getD i 0 - close.getD (i - 1) 0| |low.getD i 0 - close.getD (i - 1) 0|)

/-- `StrategyLibrary.calculate_atr` (strategy_library.py).  On the empty series
the statement `tr[0] = high[0] - low[0]` raises `IndexError`, modelled as
`none`.  Otherwise: all-NaN when fewer than `period` candles, else the first
defined cell (index `period-1`) is the simple mean of the first `period`
true ranges and later cells follow Wilder's smoothing
`atr_i = (atr_(i-1)*(period-1) + tr_i)/period`.  (`period = 0` is never used by
any caller; it is mapped to the all-NaN array.) -/
def calculate_atr (high low close : List ℚ) (period : ℕ) : Option (List (Option ℚ)) :=
  if high.length = 0 then none
  else
    let tr := trueRange high low close
    if tr.length < period ∨ period = 0 then some (List.replicate tr.length none)
    else
      let first := mean (tr.take period)
      let rest := (tr.drop period).scanl
        (fun prev t => (prev * ((period : ℚ) - 1) + t) / (period : ℚ)) first
      some (List.replicate (period - 1) none ++ rest.map some)

/-- The Wilder-smoothed (average gain, average loss) pairs of
`StrategyLibrary.calculate_rsi`, one pair per index `period, period+1, …` of the
close series: the seed pair is the simple mean of the first `period` gains and
losses, and step `i` folds in `gain_(i-1)`/`loss_(i-1)` with weight `1/period`. -/
def rsiAvgs (close : List ℚ) (period : ℕ) : List (ℚ × ℚ) :=
  let delta := (close.zip (close.drop 1)).map fun p => p.2 - p.1
  let gain := delta.map fun d => max d 0
  let loss := delta.map fun d => max (-d) 0
  ((gain.drop period).zip (loss.drop period)).scanl
    (fun ab gl => ((ab.1 * ((period : ℚ) - 1) + gl.1) / (period : ℚ),
                   (ab.2 * ((period : ℚ) - 1) + gl.2) / (period : ℚ)))
    (mean (gain.take period), mean (loss.take period))

/-- `StrategyLibrary.calculate_rsi` (strategy_library.py): all-NaN when
`len(close) <= period`; otherwise index `period + i` carries
`100 - 100/(1 + rs)` where `rs = 100` when the average loss is zero and
`avgGain/avgLoss` otherwise. -/
def calculate_rsi (close : List ℚ) (period : ℕ) : List (Option ℚ) :=
  if close.length ≤ period then List.replicate close.length none
  else
    List.replicate period none ++
      (rsiAvgs close period).map fun ab =>
        some (100 - 100 / (1 + if ab.2 = 0 then 100 else ab.1 / ab.2))

/-- Division with NaN cells; a zero denominator yields the undefined sentinel
(pandas produces NaN or ±inf there; no caller of the stochastic relies on that
cell, and every claim exercises only the short-input path). -/
def odiv : Option ℚ → Option ℚ → Option ℚ
  | some a, some b => if b = 0 then none else some (a / b)
  | _, _ => none

structure Stoch where
  k : List (Option ℚ)
  d : List (Option ℚ)

/-- `StrategyLibrary.calculate_stochastic` (strategy_library.py): all-NaN `%K`
and `%D` when `len(close) < k_period`; otherwise raw
`%K = 100*(close - low_min)/(high_max - low_min)` over the rolling `k_period`
window, slowed by a `slow_period` rolling mean, and `%D` a further `d_period`
rolling mean. -/
def calculate_stochastic (high low close : List ℚ) (k_period d_period slow_period : ℕ) : Stoch :=
  if close.length < k_period then
    ⟨List.replicate close.length none, List.replicate close.length none⟩
  else
    let low_min := rollingApply k_period (fun w => (w.min?).getD 0) low
    let high_max := rollingApply k_period (fun w => (w.max?).getD 0) high
    let k_raw := (List.range close.length).map fun i =>
      odiv (omap2 (fun c lm => 100 * (c - lm)) (some (close.getD i 0)) (low_min.getD i none))
           (omap2 (fun hm lm => hm - lm) (high_max.getD i none) (low_min.getD i none))
    let k_smoothed := rollingApplyO slow_period mean k_raw
    let d_line := rollingApplyO d_period mean k_smoothed
    ⟨k_smoothed, d_line⟩

/-- Python substring containment `sub in s`. -/
def strContains (s sub : String) : Bool := decide (sub.data <:+: s.data)

/-- Last element of a NaN-carrying array, as the Python code's `arr[-1]`
(always defined at every call site; default 0 is unreachable there). -/
def lastD (l : List (Option ℚ)) : ℚ := ((l.getLast?).getD none).getD 0

/-- Last element of a plain array, as `arr[-1]`. -/
def lastQ (l : List ℚ) : ℚ := (l.getLast?).getD 0

/-- One candle row of the OHLCV dataframe (only the columns the regime and
indicator code reads). -/
structure Candle where
  high : ℚ
  low : ℚ
  close : ℚ

/-- `RegimeEngine.analyze` (regime_engine.py), transliterated statement by
statement: fewer than 50 candles yields UNKNOWN; otherwise EMA20/EMA50,
the Bollinger(20, 2) width percentile over the trailing 100 defined samples,
and ATR(14)/close*100 feed the classification chain. -/
def analyze (sq : ℚ → ℚ) (df : List Candle) : String :=
  if df.length < 50 then "UNKNOWN"
  else
    let close := df.map Candle.close
    let high := df.map Candle.high
    let low := df.map Candle.low
    let ema20 := calculate_ema close 20
    let ema50 := calculate_ema close 50
    let latest_ema20 := lastQ ema20
    let latest_ema50 := lastQ ema50
    let bb := calculate_bollinger_bands sq close 20 2
    let bb_width := bb.width
    let current_width := lastD bb_width
    let width_history := (bb_width.drop (bb_width.length - 100)).filterMap id
    let width_percentile :=
      ((width_history.countP fun x => decide (x < current_width) : ℕ) : ℚ) /
        (width_history.length : ℚ) * 100
    let atr := (calculate_atr high low close 14).getD []
    let atr_rel := lastD atr / lastQ close * 100
    if width_percentile < 15 then "COMPRESSED"
    else if atr_rel > 3 then "HIGH_VOLATILITY"
    else if latest_ema20 > latest_ema50 * (1002 / 1000) then "BULL_TREND"
    else if latest_ema20 < latest_ema50 * (998 / 1000) then "BEAR_TREND"
    else "RANGING"

/-- The Bollinger-width percentile rank exactly as the specification words it:
the fraction of the trailing 100 width samples (the defined ones — indices
inside the warm-up window carry no sample) strictly below the current width,
times 100. -/
def bbWidthPercentile (sq : ℚ → ℚ) (close : List ℚ) : ℚ :=
  let bb_width := (calculate_bollinger_bands sq close 20 2).width
  let current_width := lastD bb_width
  let width_history := (bb_width.drop (bb_width.length - 100)).filterMap id
  ((width_history.countP fun x => decide (x < current_width) : ℕ) : ℚ) /
    (width_history.length : ℚ) * 100

/-- Relative ATR in percent: `ATR(14)/close * 100` at the latest candle. -/
def atrRelPct (high low close : List ℚ) : ℚ :=
  lastD ((calculate_atr high low close 14).getD []) / lastQ close * 100

/-- The regime-classification priority chain as the claim states it:
UNKNOWN below 50 candles, then first match among COMPRESSED
(width percentile < 15), HIGH_VOLATILITY (relative ATR > 3.0),
BULL_TREND (EMA20 > EMA50*1.002), BEAR_TREND (EMA20 < EMA50*0.998), RANGING. -/
def regimeClaimClassify (sq : ℚ → ℚ) (df : List Candle) : String :=
  if df.length < 50 then "UNKNOWN"
  else if bbWidthPercentile sq (df.map Candle.close) < 15 then "COMPRESSED"
  else if atrRelPct (df.map Candle.high) (df.map Candle.low) (df.map Candle.close) > 3 then
    "HIGH_VOLATILITY"
  else if lastQ (calculate_ema (df.map Candle.close) 20) >
      lastQ (calculate_ema (df.map Candle.close) 50) * (1002 / 1000) then "BULL_TREND"
  else if lastQ (calculate_ema (df.map Candle.close) 20) <
      lastQ (calculate_ema (df.map Candle.close) 50) * (998 / 1000) then "BEAR_TREND"
  else "RANGING"

/-- Python `dict.get(key, default)` on a small literal string-keyed table. -/
def dictGetD (d : List (String × ℚ)) (key : String) (dflt : ℚ) : ℚ :=
  match d.find? (fun p => p.1 == key) with
  | some p => p.2
  | none => dflt

/-- `RegimeEngine.get_regime_weights` (regime_engine.py): the hardcoded
per-regime weight table; an unmapped regime falls through to the
`.get` default `{"default": 1.0}`. -/
def get_regime_weights (regime : String) : List (String × ℚ) :=
  if regime = "BULL_TREND" then
    [("VolatilityExpansion", 6/5), ("MeanReversion", 1/2), ("Momentum", 3/2)]
  else if regime = "BEAR_TREND" then
    [("VolatilityExpansion", 6/5), ("MeanReversion", 1/2), ("Momentum", 3/2)]
  else if regime = "RANGING" then
    [("VolatilityExpansion", 1/2), ("MeanReversion", 3/2), ("Momentum", 3/10)]
  else if regime = "COMPRESSED" then
    [("VolatilityExpansion", 2), ("MeanReversion", 1/2), ("Momentum", 1)]
  else if regime = "HIGH_VOLATILITY" then
    [("VolatilityExpansion", 4/5), ("MeanReversion", 4/5), ("Momentum", 4/5)]
  else [("default", 1)]

/-- `RiskConfig` (config/risk_config.py) with its literal defaults. -/
structure RiskConfig where
  max_risk_per_trade : ℚ := 1/100
  max_portfolio_drawdown : ℚ := 1/10
  automatic_deleveraging : Bool := true
  stablecoin_fallback : Bool := true
  kill_switch_on_extreme_volatility : Bool := true
  min_order_size_usdt : ℚ := 10
  max_leverage : ℚ := 20
  circuit_breaker_price_gap_pct : ℚ := 1/20
  position_size_validation_before_execution : Bool := true
  double_check_real_money_orders : Bool := true

/-- The module-level `RISK_CONFIG = RiskConfig()` instance. -/
def RISK_CONFIG : RiskConfig := {}

/-- The static 0.3% stop loss hardcoded in `ScalperEngine.execute_scalp`. -/
def stop_loss_pct : ℚ := 3/1000

/-- The equity fallback of `execute_scalp`: a non-positive cached equity is
replaced by the 5000 default. -/
def effectiveEquity (e : ℚ) : ℚ := if e ≤ 0 then 5000 else e

/-- The Python truthiness idiom `RISK_CONFIG.max_leverage or 10`. -/
def effectiveLeverage (cfg : RiskConfig) : ℚ :=
  if cfg.max_leverage = 0 then 10 else cfg.max_leverage

/-- The strategy-conviction factor of `execute_scalp`: 1.0 when the reason tag
contains "STRICT", 0.5 when it contains "LOOSE", else 0.75. -/
def convictionMultiplier (reason : String) : ℚ :=
  if strContains reason "STRICT" then 1
  else if strContains reason "LOOSE" then 1/2
  else 3/4

/-- The regime-based weight adjustment of `execute_scalp`: momentum weight on a
trend-aligned side, mean-reversion weight when RANGING, 0.7 in
HIGH_VOLATILITY, 1.2 in COMPRESSED, else 1. -/
def regimeMultiplier (regime side : String) (w : List (String × ℚ)) : ℚ :=
  let momentum_weight := dictGetD w "Momentum" 1
  let mean_reversion_weight := dictGetD w "MeanReversion" 1
  if regime = "BULL_TREND" ∧ side = "BUY" then momentum_weight
  else if regime = "BEAR_TREND" ∧ side = "SELL" then momentum_weight
  else if regime = "RANGING" then mean_reversion_weight
  else if regime = "HIGH_VOLATILITY" then 7/10
  else if regime = "COMPRESSED" then 6/5
  else 1

/-- `adjusted_max_loss_usdt` of `execute_scalp`: equity times the per-trade risk
fraction, scaled by conviction and regime multipliers. -/
def adjustedMaxLoss (cfg : RiskConfig) (equity : ℚ) (reason regime side : String)
    (w : List (String × ℚ)) : ℚ :=
  equity * cfg.max_risk_per_trade * convictionMultiplier reason * regimeMultiplier regime side w

/-- `position_size_usdt` of `execute_scalp` after the leverage cap:
`min (maxLoss / stopLossPct) (equity * leverage)`. -/
def scalpPositionSize (cfg : RiskConfig) (equity0 : ℚ) (reason regime side : String)
    (w : List (String × ℚ)) : ℚ :=
  min (adjustedMaxLoss cfg (effectiveEquity equity0) reason regime side w / stop_loss_pct)
    (effectiveEquity equity0 * effectiveLeverage cfg)

/-- Round-half-to-even on `ℚ` at integer precision: the idealisation of
Python's `round` on doubles. -/
def roundHalfEven (x : ℚ) : ℤ :=
  if x - ⌊x⌋ < 1/2 then ⌊x⌋
  else if 1/2 < x - ⌊x⌋ then ⌊x⌋ + 1
  else if ⌊x⌋ % 2 = 0 then ⌊x⌋ else ⌊x⌋ + 1

/-- Python `round(x, n)` idealised over `ℚ`. -/
def pyRound (x : ℚ) (n : ℕ) : ℚ := (roundHalfEven (x * 10 ^ n) : ℚ) / 10 ^ n

/-- The decimal precision tier of `execute_scalp`: 3 decimals above 10000,
2 decimals above 100, 1 decimal for HBAR pairs, else whole units. -/
def tierExp (symbol : String) (price : ℚ) : ℕ :=
  if price > 10000 then 3
  else if price > 100 then 2
  else if strContains symbol "HBAR" then 1
  else 0

/-- The sized order request `execute_scalp` hands to the executor (together
with the `amount_usd` notional it logs). -/
structure SizedOrder where
  symbol : String
  side : String
  amount : ℚ
  price : ℚ
  leverage : ℚ
  position_size_usdt : ℚ

/-- The sizing pipeline of `ScalperEngine.execute_scalp` (scalper_engine.py):
risk budget → conviction and regime multipliers → notional = budget / stop loss
→ leverage cap → minimum-notional abort (`none`: nothing is submitted and no
Position is created) → price-tier rounding of the asset amount. -/
def executeScalpSizing (cfg : RiskConfig) (equity0 : ℚ) (symbol side : String) (price : ℚ)
    (reason regime : String) (w : List (String × ℚ)) : Option SizedOrder :=
  if scalpPositionSize cfg equity0 reason regime side w < cfg.min_order_size_usdt then none
  else
    some { symbol := symbol, side := side,
           amount := pyRound (scalpPositionSize cfg equity0 reason regime side w / price)
             (tierExp symbol price),
           price := price,
           leverage := effectiveLeverage cfg,
           position_size_usdt := scalpPositionSize cfg equity0 reason regime side w }

/-- `ExecutionValidator.validate` (security/execution_validator.py): a missing
order price defaults to the last-known price; `price_gap` divides the absolute
price difference by the last-known price (a zero last-known price raises
`ZeroDivisionError`, modelled as `Except.error`); a gap above the circuit
breaker threshold is rejected (`ok false`), anything else passes (`ok true`). -/
def validate (cfg : RiskConfig) (orderPrice : Option ℚ) (current_price : ℚ) :
    Except String Bool :=
  if current_price = 0 then Except.error "ZeroDivisionError"
  else if |orderPrice.getD current_price - current_price| / current_price >
      cfg.circuit_breaker_price_gap_pct then Except.ok false
  else Except.ok true

/-- A `Trade` row of the ledger, with the fields
`ScalperEngine.manage_open_positions` reads and writes. -/
structure DbTrade where
  status : String
  side : String
  amount : ℚ
  entry_price : ℚ
  exit_price : Option ℚ
  exit_time : Option ℕ
  pnl : Option ℚ

/-- `pnl_pct` of `manage_open_positions`: `(price-entry)/entry` for a BUY,
`(entry-price)/entry` otherwise. -/
def pnl_pct (side : String) (entry price : ℚ) : ℚ :=
  if side = "BUY" then (price - entry) / entry else (entry - price) / entry

/-- The exit trigger of `manage_open_positions`: TAKE_PROFIT at `pnl_pct ≥ 0.5%`,
else STOP_LOSS at `pnl_pct ≤ -0.3%`, else no exit. -/
def exitReason (p : ℚ) : Option String :=
  if p ≥ 5/1000 then some "TAKE_PROFIT"
  else if p ≤ -(3/1000) then some "STOP_LOSS"
  else none

/-- One iteration of `manage_open_positions` over a single OPEN ledger row at a
fresh `price`: when the exit condition fires, the closing order is submitted
and — only if its result reports success (`closeSuccess`) — the row is updated
to CLOSED with exit price, exit time and
`pnl = (price - entry) * amount * (1 for BUY, -1 for SELL)`; otherwise the row
is returned unchanged. -/
def manageTradeStep (t : DbTrade) (price : ℚ) (closeSuccess : Bool) (now : ℕ) : DbTrade :=
  match exitReason (pnl_pct t.side t.entry_price price) with
  | none => t
  | some _ =>
    if closeSuccess then
      { t with status := "CLOSED", exit_price := some price, exit_time := some now,
               pnl := some ((price - t.entry_price) * t.amount *
                 (if t.side = "BUY" then 1 else -1)) }
    else t

/-- An `ACTIVE_TRADES` entry, reduced to the fields the duplicate-entry guard of
`ScalperEngine.scan_market` inspects. -/
structure TradeRec where
  symbol : String
  reason : String
deriving DecidableEq, BEq

/-- The scalp-class test of the guard:
`"SCALP" in t["reason"] or "RECON" in t["reason"]`. -/
def scalpClassB (t : TradeRec) : Bool :=
  strContains t.reason "SCALP" || strContains t.reason "RECON"

/-- The interleaving model of the shared `ACTIVE_TRADES` list.  The whole bot
runs on one asyncio event loop, and no suspension point (`await`) separates the
duplicate-entry guard in `scan_market` from the `ACTIVE_TRADES.append` in
`execute_scalp` (`execute_scalp` contains no `await` at all), so a scan attempt
that passes the guard and appends is a single atomic step; concurrent scan
tasks interleave these atomic steps.  `close` models the removal performed by
`manage_open_positions` after a finalized exit; `skip` covers every attempt that
appends nothing (guard hit, sizing abort, rejected fill). -/
inductive ScalpStep : List TradeRec → List TradeRec → Prop
  | scan (s : List TradeRec) (symbol reason : String)
      (hr : reason = "STRICT_SCALP" ∨ reason = "LOOSE_SCALP" ∨ reason = "RECON_SYNC")
      (hguard : ∀ t ∈ s, ¬(t.symbol = symbol ∧ scalpClassB t = true)) :
      ScalpStep s (s ++ [⟨symbol, reason⟩])
  | skip (s : List TradeRec) : ScalpStep s s
  | close (s : List TradeRec) (t : TradeRec) : ScalpStep s (s.erase t)

/-- Number of open scalp-class entries for a symbol. -/
def scalpOpenCount (s : List TradeRec) (symbol : String) : ℕ :=
  (s.filter fun t => t.symbol == symbol && scalpClassB t).length

/-- At most one open scalp-class entry per symbol. -/
def ScalpInvariant (s : List TradeRec) : Prop := ∀ symbol, scalpOpenCount s symbol ≤ 1

/-- States of `ACTIVE_TRADES` reachable from the empty startup state by any
interleaving of scan attempts and exits. -/
def ScalpReachable (s : List TradeRec) : Prop := Relation.ReflTransGen ScalpStep [] s

/-- C6: a regime value outside the five mapped regimes makes the weight lookup
(with the `.get` defaults of `execute_scalp`) yield 1.0 for each of the
Momentum, MeanReversion and VolatilityExpansion strategy weights. -/
theorem regime_weights_default_one (regime : String)
    (h : regime ∉ (["BULL_TREND", "BEAR_TREND", "RANGING", "COMPRESSED",
      "HIGH_VOLATILITY"] : List String)) :
    dictGetD (get_regime_weights regime) "Momentum" 1 = 1 ∧
    dictGetD (get_regime_weights regime) "MeanReversion" 1 = 1 ∧
    dictGetD (get_regime_weights regime) "VolatilityExpansion" 1 = 1 := by
  simp only [List.mem_cons, List.mem_singleton, not_or] at h
  obtain ⟨h1, h2, h3, h4, h5, -⟩ := h
  simp [get_regime_weights, h1, h2, h3, h4, h5, dictGetD]

theorem regime_weights_default_one_witness :
    dictGetD (get_regime_weights "UNKNOWN") "Momentum" 1 = 1 ∧
    dictGetD (get_regime_weights "UNKNOWN") "MeanReversion" 1 = 1 ∧
    dictGetD (get_regime_weights "UNKNOWN") "VolatilityExpansion" 1 = 1 :=
  regime_weights_default_one "UNKNOWN" (by decide)

/-- C7: an intent whose leverage-capped notional is below the minimum order
notional is aborted: `execute_scalp` returns before submitting anything, so no
order is submitted and no Position is created (result `none`). -/
theorem scalp_min_notional_abort (cfg : RiskConfig) (equity0 : ℚ) (symbol side : String)
    (price : ℚ) (reason regime : String) (w : List (String × ℚ))
    (h : scalpPositionSize cfg equity0 reason regime side w < cfg.min_order_size_usdt) :
    executeScalpSizing cfg equity0 symbol side price reason regime w = none := by
  unfold executeScalpSizing
  exact if_pos h

theorem scalp_min_notional_abort_witness :
    scalpPositionSize RISK_CONFIG (12/5) "STRICT_SCALP" "RANGING" "BUY" [] = 8 ∧
    executeScalpSizing RISK_CONFIG (12/5) "XRPUSDT" "BUY" 1 "STRICT_SCALP" "RANGING" [] =
      none := by
  have h8 : scalpPositionSize RISK_CONFIG (12/5) "STRICT_SCALP" "RANGING" "BUY" [] = 8 := by
    have hc : convictionMultiplier "STRICT_SCALP" = 1 := by decide
    have hr : regimeMultiplier "RANGING" "BUY" [] = 1 := by decide
    simp only [scalpPositionSize, adjustedMaxLoss, hc, hr]
    norm_num [effectiveEquity, effectiveLeverage, stop_loss_pct, RISK_CONFIG]
  refine ⟨h8, scalp_min_notional_abort RISK_CONFIG (12/5) "XRPUSDT" "BUY" 1 "STRICT_SCALP"
    "RANGING" [] ?_⟩
  rw [h8]
  norm_num [RISK_CONFIG]

/-- C8: for a nonzero last-known price, the Execution Validator rejects an
order exactly when `|orderPrice - lastKnownPrice| / lastKnownPrice` exceeds the
circuit-breaker gap threshold, and passes it otherwise. -/
theorem validator_gap_iff (cfg : RiskConfig) (op c : ℚ) (hc : c ≠ 0) :
    (validate cfg (some op) c = Except.ok false ↔
      |op - c| / c > cfg.circuit_breaker_price_gap_pct) ∧
    (validate cfg (some op) c = Except.ok true ↔
      ¬ |op - c| / c > cfg.circuit_breaker_price_gap_pct) := by
  unfold validate
  rw [if_neg hc]
  simp only [Option.getD_some]
  by_cases hgap : |op - c| / c > cfg.circuit_breaker_price_gap_pct
  · rw [if_pos hgap]
    exact ⟨⟨fun _ => hgap, fun _ => rfl⟩,
      ⟨fun h => Bool.noConfusion (Except.ok.inj h), fun h => absurd hgap h⟩⟩
  · rw [if_neg hgap]
    exact ⟨⟨fun h => Bool.noConfusion (Except.ok.inj h), fun h => absurd h hgap⟩,
      ⟨fun _ => hgap, fun _ => rfl⟩⟩

theorem validator_gap_iff_witness :
    (validate RISK_CONFIG (some 107) 100 = Except.ok false ↔
      |(107 : ℚ) - 100| / 100 > RISK_CONFIG.circuit_breaker_price_gap_pct) ∧
    validate RISK_CONFIG (some 107) 100 = Except.ok false :=
  ⟨(validator_gap_iff RISK_CONFIG 107 100 (by norm_num)).1,
   (validator_gap_iff RISK_CONFIG 107 100 (by norm_num)).1.mpr (by norm_num [RISK_CONFIG])⟩

/-- C10: an order dict with no price key has the last-known price substituted,
so its computed gap is 0 and — for any nonzero last-known price and any
nonnegative configured threshold — the circuit-breaker check passes it. -/
theorem validator_priceless_passes (cfg : RiskConfig) (c : ℚ) (hc : c ≠ 0)
    (hth : 0 ≤ cfg.circuit_breaker_price_gap_pct) :
    validate cfg none c = Except.ok true := by
  unfold validate
  rw [if_neg hc]
  simp only [Option.getD_none, sub_self, abs_zero, zero_div]
  rw [if_neg (by exact not_lt.mpr hth)]

theorem validator_priceless_passes_witness :
    validate RISK_CONFIG none 100 = Except.ok true :=
  validator_priceless_passes RISK_CONFIG 100 (by norm_num) (by norm_num [RISK_CONFIG])

/-- C9: when an OPEN position's exit condition is met, the ledger row is marked
CLOSED — with the exit price, the close timestamp, and
`realizedPnl = (exitPrice - entry) * quantity * (+1 for BUY, -1 for SELL)` —
exactly when the closing order reports success; a failed close attempt leaves
the stored row unchanged, still OPEN for the next cycle. -/
theorem exit_close_confirmed_fill (t : DbTrade) (price : ℚ) (ok : Bool) (now : ℕ)
    (hopen : t.status = "OPEN")
    (hexit : (exitReason (pnl_pct t.side t.entry_price price)).isSome = true) :
    (ok = true → manageTradeStep t price ok now =
      { t with status := "CLOSED", exit_price := some price, exit_time := some now,
               pnl := some ((price - t.entry_price) * t.amount *
                 (if t.side = "BUY" then 1 else -1)) }) ∧
    (ok = false → manageTradeStep t price ok now = t ∧
      (manageTradeStep t price ok now).status = "OPEN") := by
  obtain ⟨r, hr⟩ := Option.isSome_iff_exists.mp hexit
  unfold manageTradeStep
  rw [hr]
  constructor
  · intro hok; rw [hok]; rfl
  · intro hok; rw [hok]; exact ⟨rfl, hopen⟩

theorem exit_close_confirmed_fill_witness :
    (true = true → manageTradeStep ⟨"OPEN", "BUY", 2, 100, none, none, none⟩ 101 true 7 =
      { (⟨"OPEN", "BUY", 2, 100, none, none, none⟩ : DbTrade) with
        status := "CLOSED", exit_price := some 101, exit_time := some 7,
        pnl := some ((101 - (100 : ℚ)) * 2 * (if "BUY" = "BUY" then 1 else -1)) }) ∧
    (true = false → manageTradeStep ⟨"OPEN", "BUY", 2, 100, none, none, none⟩ 101 true 7 =
      ⟨"OPEN", "BUY", 2, 100, none, none, none⟩ ∧
      (manageTradeStep ⟨"OPEN", "BUY", 2, 100, none, none, none⟩ 101 true 7).status =
        "OPEN") :=
  exit_close_confirmed_fill ⟨"OPEN", "BUY", 2, 100, none, none, none⟩ 101 true 7
    (by rfl) (by norm_num [exitReason, pnl_pct])

/-- A strictly increasing 15-sample close series: every delta is a gain, so the
Wilder-smoothed average loss at index 14 (period 14) is exactly 0. -/
def c3close : List ℚ := [1, 2, 3, 4, 5, 6, 7, 8, 9, 10, 11, 12, 13, 14, 15]

/-- C3's claim fails on the code: at the first defined index of a strictly
increasing series the average loss is 0, yet `calculate_rsi` yields
`100 - 100/(1+100) = 10000/101`, not 100 — the code substitutes `rs = 100`
(not infinity) when the average loss is zero. -/
theorem rsi_zero_loss_cex :
    (rsiAvgs c3close 14).head? = some (1, 0) ∧
    (calculate_rsi c3close 14)[14]? = some (some (10000/101)) ∧
    (10000/101 : ℚ) ≠ 100 := by
  have hag : rsiAvgs c3close 14 = [(1, 0)] := by
    simp only [rsiAvgs, c3close]
    norm_num [mean]
  refine ⟨by rw [hag]; rfl, ?_, by norm_num⟩
  unfold calculate_rsi
  rw [if_neg (by simp [c3close])]
  rw [hag]
  norm_num [c3close]

/-- C3 amended: wherever the Wilder-smoothed average loss is 0 (and the series
is long enough for defined values), the RSI function returns exactly
`100 - 100/(1+100) = 10000/101 ≈ 99.0099`, the code's capped-RS convention,
rather than 100. -/
theorem rsi_zero_avg_loss_value (close : List ℚ) (p i : ℕ) (hlen : p < close.length)
    (hi : i < (rsiAvgs close p).length)
    (hzero : ((rsiAvgs close p).get ⟨i, hi⟩).2 = 0) :
    (calculate_rsi close p)[p + i]? = some (some (10000/101)) := by
  unfold calculate_rsi
  rw [if_neg (not_le.mpr hlen)]
  rw [List.getElem?_append_right (by simp)]
  simp only [List.length_replicate, Nat.add_sub_cancel_left]
  rw [List.getElem?_map, List.getElem?_eq_getElem hi]
  have h2 : ((rsiAvgs close p)[i]).2 = 0 := hzero
  simp only [Option.map_some', h2, if_true, eq_self_iff_true]
  norm_num

theorem rsi_zero_avg_loss_value_witness :
    (calculate_rsi c3close 14)[14 + 0]? = some (some (10000/101)) := by
  have hag : rsiAvgs c3close 14 = [(1, 0)] := by
    simp only [rsiAvgs, c3close]
    norm_num [mean]
  exact rsi_zero_avg_loss_value c3close 14 0 (by simp [c3close])
    (by rw [hag]; norm_num) (by simp [hag])

theorem rollingApply_short (n : ℕ) (f : List ℚ → ℚ) (l : List ℚ) (h : l.length < n) :
    rollingApply n f l = List.replicate l.length none := by
  unfold rollingApply
  rw [List.eq_replicate_iff]
  refine ⟨by simp, fun b hb => ?_⟩
  simp only [List.mem_map, List.mem_range] at hb
  obtain ⟨i, hi, rfl⟩ := hb
  rw [if_neg (by omega)]

theorem zipWith_omap2_none (f : ℚ → ℚ → ℚ) (n : ℕ) :
    List.zipWith (omap2 f) (List.replicate n none) (List.replicate n none) =
      List.replicate n none := by
  induction n with
  | zero => rfl
  | succ m ih => simp [List.replicate_succ, ih, omap2]

/-- C4's universal never-throw claim fails at the empty series: `calculate_atr`
reaches `tr[0] = high[0] - low[0]`, which raises `IndexError` on empty input
(modelled as `none`), instead of returning the (empty) same-length
all-undefined array. -/
theorem atr_empty_input_error : calculate_atr ([] : List ℚ) [] [] 14 = none := rfl

/-- C4 amended: on input shorter than the required lookback every indicator
returns the same-length all-undefined array without throwing — with two
refinements forced by the code: EMA is seeded by the first sample (its warm-up
is a single candle, so only the empty series is below its lookback, yielding
the empty array), and ATR raises `IndexError` on the empty series (the nonempty
short-input case does return the all-undefined array). -/
theorem short_input_all_undefined (sq : ℚ → ℚ) (data high low close : List ℚ)
    (p kp dp sp : ℕ) (sd : ℚ) :
    (data.length < p → calculate_sma data p = List.replicate data.length none)
    ∧ calculate_ema [] p = []
    ∧ (data.length < p →
        calculate_bollinger_bands sq data p sd =
          ⟨List.replicate data.length none, List.replicate data.length none,
           List.replicate data.length none, List.replicate data.length none⟩)
    ∧ (high ≠ [] → high.length < p →
        calculate_atr high low close p = some (List.replicate high.length none))
    ∧ (close.length ≤ p → calculate_rsi close p = List.replicate close.length none)
    ∧ (close.length < kp →
        calculate_stochastic high low close kp dp sp =
          ⟨List.replicate close.length none, List.replicate close.length none⟩) := by
  refine ⟨fun h => ?_, rfl, fun h => ?_, fun hne h => ?_, fun h => ?_, fun h => ?_⟩
  · unfold calculate_sma
    rw [if_pos h]
  · have hsma : calculate_sma data p = List.replicate data.length none := by
      unfold calculate_sma; rw [if_pos h]
    have hstd : rollingStd sq data p = List.replicate data.length none :=
      rollingApply_short p _ data h
    unfold calculate_bollinger_bands
    rw [hsma, hstd]
    simp only [zipWith_omap2_none]
  · have hlen : (trueRange high low close).length = high.length := by
      simp [trueRange]
    unfold calculate_atr
    rw [if_neg (by simpa using hne)]
    rw [if_pos (Or.inl (by omega))]
    rw [hlen]
  · unfold calculate_rsi
    rw [if_pos h]
  · unfold calculate_stochastic
    rw [if_pos h]

theorem short_input_all_undefined_witness :
    calculate_sma [1] 14 = [none] ∧
    calculate_atr [(1 : ℚ)] [1] [1] 14 = some [none] ∧
    calculate_rsi [(1 : ℚ)] 14 = [none] ∧
    calculate_stochastic [(1 : ℚ)] [1] [1] 9 3 3 = ⟨[none], [none]⟩ := by
  obtain ⟨h1, -, -, h4, h5, h6⟩ :=
    short_input_all_undefined id [1] [1] [1] [1] 14 9 3 3 2
  exact ⟨by simpa using h1 (by norm_num), by simpa using h4 (by simp) (by norm_num),
    by simpa using h5 (by norm_num), by simpa using h6 (by norm_num)⟩

/-- C5: the regime classifier returns UNKNOWN below 50 candles, and otherwise
applies exactly the claimed priority chain — COMPRESSED on Bollinger-width
percentile < 15 first, then HIGH_VOLATILITY on relative ATR > 3.0, then
BULL_TREND / BEAR_TREND on EMA20 vs EMA50 with the 1.002/0.998 buffers, else
RANGING — for every square-root map and every candle window. -/
theorem regime_priority_order (sq : ℚ → ℚ) (df : List Candle) :
    analyze sq df = regimeClaimClassify sq df := rfl

theorem scalpStep_preserves (s s2 : List TradeRec) (hstep : ScalpStep s s2)
    (hinv : ScalpInvariant s) : ScalpInvariant s2 := by
  cases hstep with
  | scan symbol reason hr hguard =>
    intro sym
    have hbase := hinv sym
    unfold scalpOpenCount at hbase ⊢
    rw [List.filter_append, List.length_append]
    by_cases hmatch :
        ((⟨symbol, reason⟩ : TradeRec).symbol == sym && scalpClassB ⟨symbol, reason⟩) = true
    · have hsym : symbol = sym := by
        simpa using (Bool.and_eq_true _ _ |>.mp hmatch).1
      have hzero : (s.filter fun t => t.symbol == sym && scalpClassB t) = [] := by
        rw [List.filter_eq_nil_iff]
        intro t ht habs
        simp only [Bool.and_eq_true, beq_iff_eq] at habs
        exact hguard t ht ⟨habs.1.trans hsym.symm, habs.2⟩
      rw [hzero]
      simp only [List.filter, hmatch]
      simp
    · have hone : (List.filter (fun t => t.symbol == sym && scalpClassB t)
          [(⟨symbol, reason⟩ : TradeRec)]) = [] := by
        simp only [List.filter, hmatch]
      rw [hone]
      simpa using hbase
  | skip => exact hinv
  | close t =>
    intro sym
    exact le_trans
      (List.Sublist.length_le (List.Sublist.filter _ (List.erase_sublist t _)))
      (hinv sym)

/-- C2: in the event-loop interleaving model of `scan_market` and
`manage_open_positions` — where a scan attempt that passes the duplicate-entry
guard appends its trade atomically (no `await` separates the guard from the
append in the source) — every state of `ACTIVE_TRADES` reachable from startup
has at most one open scalp-class position per symbol, under any interleaving of
concurrent scan attempts and exits. -/
theorem scalp_open_unique (s : List TradeRec) (h : ScalpReachable s) : ScalpInvariant s := by
  induction h with
  | refl => intro sym; simp [scalpOpenCount]
  | tail hab hbc ih => exact scalpStep_preserves _ _ hbc ih

theorem scalp_open_unique_witness : ScalpInvariant [⟨"BTCUSDT", "STRICT_SCALP"⟩] :=
  scalp_open_unique ([] ++ [⟨"BTCUSDT", "STRICT_SCALP"⟩])
    (Relation.ReflTransGen.single
      (ScalpStep.scan [] "BTCUSDT" "STRICT_SCALP" (Or.inl rfl) (by simp)))

/-- The three strategy tags that can reach `execute_scalp`, with the reason
string `scan_market` passes for each. -/
inductive StrategyTag
  | STRICT
  | LOOSE
  | RECON

/-- The `strategy_matched` reason string of `scan_market` for each tag. -/
def tagReason : StrategyTag → String
  | .STRICT => "STRICT_SCALP"
  | .LOOSE => "LOOSE_SCALP"
  | .RECON => "RECON_SYNC"

/-- The conviction multipliers exactly as the claim lists them:
1.0 for STRICT, 0.5 for LOOSE, 0.75 for RECON. -/
def tagConviction : StrategyTag → ℚ
  | .STRICT => 1
  | .LOOSE => 1/2
  | .RECON => 3/4

theorem roundHalfEven_close (y : ℚ) : |(roundHalfEven y : ℚ) - y| ≤ 1/2 := by
  have h0 : ((⌊y⌋ : ℤ) : ℚ) ≤ y := Int.floor_le y
  have h1 : y < (⌊y⌋ : ℚ) + 1 := Int.lt_floor_add_one y
  unfold roundHalfEven
  split_ifs with ha hb hc
  · rw [abs_le]
    constructor <;> linarith
  · rw [abs_le]
    push_cast
    constructor <;> linarith
  · have hhalf : y - (⌊y⌋ : ℚ) = 1/2 := le_antisymm (not_lt.mp hb) (not_lt.mp ha)
    rw [abs_le]
    constructor <;> linarith
  · have hhalf : y - (⌊y⌋ : ℚ) = 1/2 := le_antisymm (not_lt.mp hb) (not_lt.mp ha)
    rw [abs_le]
    push_cast
    constructor <;> linarith

theorem pyRound_close (x : ℚ) (n : ℕ) : |pyRound x n - x| ≤ 1/2/10 ^ n := by
  have hpos : (0 : ℚ) < 10 ^ n := by positivity
  have key : pyRound x n - x =
      ((roundHalfEven (x * 10 ^ n) : ℚ) - x * 10 ^ n) / 10 ^ n := by
    unfold pyRound
    field_simp
    ring
  rw [key, abs_div, abs_of_pos hpos]
  exact (div_le_div_iff_of_pos_right hpos).mpr (roundHalfEven_close _)

/-- C1: whenever the computed notional is not capped by the leverage limit and
not below the minimum order notional, `execute_scalp` produces a sized order
with `quantity * price * stopLossPct` within rounding tolerance (half a unit of
the price-tier precision, scaled) of
`equity * maxRiskPerTrade * convictionMultiplier * regimeMultiplier`, where the
conviction multiplier is 1.0 for STRICT, 0.5 for LOOSE and 0.75 for RECON and
the stop loss is 0.3%; the uncapped notional is exactly that budget divided by
0.003. -/
theorem scalp_sizing_risk_budget (cfg : RiskConfig) (tag : StrategyTag)
    (equity price : ℚ) (symbol side regime : String) (w : List (String × ℚ))
    (heq : 0 < equity) (hp : 0 < price)
    (hcap : equity * cfg.max_risk_per_trade * tagConviction tag *
      regimeMultiplier regime side w / stop_loss_pct ≤ equity * effectiveLeverage cfg)
    (hmin : cfg.min_order_size_usdt ≤ equity * cfg.max_risk_per_trade * tagConviction tag *
      regimeMultiplier regime side w / stop_loss_pct) :
    ∃ o : SizedOrder,
      executeScalpSizing cfg equity symbol side price (tagReason tag) regime w = some o ∧
      o.position_size_usdt = equity * cfg.max_risk_per_trade * tagConviction tag *
        regimeMultiplier regime side w / stop_loss_pct ∧
      |o.amount * price * stop_loss_pct -
          equity * cfg.max_risk_per_trade * tagConviction tag *
            regimeMultiplier regime side w| ≤
        1/2/10 ^ tierExp symbol price * price * stop_loss_pct := by
  set B := equity * cfg.max_risk_per_trade * tagConviction tag *
    regimeMultiplier regime side w with hBdef
  have hee : effectiveEquity equity = equity := if_neg (not_le.mpr heq)
  have hconv : convictionMultiplier (tagReason tag) = tagConviction tag := by
    cases tag <;> rfl
  have hB : adjustedMaxLoss cfg (effectiveEquity equity) (tagReason tag) regime side w = B := by
    rw [adjustedMaxLoss, hee, hconv]
  have hsize : scalpPositionSize cfg equity (tagReason tag) regime side w =
      B / stop_loss_pct := by
    rw [scalpPositionSize, hB, hee]
    exact min_eq_left hcap
  have hge : ¬ scalpPositionSize cfg equity (tagReason tag) regime side w <
      cfg.min_order_size_usdt := by
    rw [hsize]
    exact not_lt.mpr hmin
  have hslp : (0 : ℚ) < stop_loss_pct := by norm_num [stop_loss_pct]
  set d := tierExp symbol price with hddef
  set a := B / stop_loss_pct / price with hadef
  have hkey : a * price * stop_loss_pct = B := by
    rw [hadef, div_mul_cancel₀ _ (ne_of_gt hp), div_mul_cancel₀ _ (ne_of_gt hslp)]
  refine ⟨{ symbol := symbol, side := side, amount := pyRound a d,
            price := price, leverage := effectiveLeverage cfg,
            position_size_usdt := B / stop_loss_pct }, ?_, rfl, ?_⟩
  · unfold executeScalpSizing
    rw [if_neg hge, hsize]
  · show |pyRound a d * price * stop_loss_pct - B| ≤ 1/2/10 ^ d * price * stop_loss_pct
    have hrew : pyRound a d * price * stop_loss_pct - B =
        (pyRound a d - a) * (price * stop_loss_pct) := by
      rw [← hkey]
      ring
    have hps : 0 < price * stop_loss_pct := mul_pos hp hslp
    rw [hrew, abs_mul, abs_of_pos hps]
    calc |pyRound a d - a| * (price * stop_loss_pct)
        ≤ 1/2/10 ^ d * (price * stop_loss_pct) :=
          mul_le_mul_of_nonneg_right (pyRound_close _ _) hps.le
      _ = 1/2/10 ^ d * price * stop_loss_pct := by ring

theorem scalp_sizing_risk_budget_witness :
    (5000 * RISK_CONFIG.max_risk_per_trade * tagConviction StrategyTag.STRICT *
      regimeMultiplier "UNKNOWN" "BUY" [] = 50) ∧
    (5000 * RISK_CONFIG.max_risk_per_trade * tagConviction StrategyTag.STRICT *
      regimeMultiplier "UNKNOWN" "BUY" [] / stop_loss_pct = 50000/3) ∧
    ∃ o : SizedOrder,
      executeScalpSizing RISK_CONFIG 5000 "BTCUSDT" "BUY" 20000
        (tagReason StrategyTag.STRICT) "UNKNOWN" [] = some o ∧
      o.position_size_usdt = 5000 * RISK_CONFIG.max_risk_per_trade *
        tagConviction StrategyTag.STRICT * regimeMultiplier "UNKNOWN" "BUY" [] /
        stop_loss_pct ∧
      |o.amount * 20000 * stop_loss_pct - 5000 * RISK_CONFIG.max_risk_per_trade *
          tagConviction StrategyTag.STRICT * regimeMultiplier "UNKNOWN" "BUY" []| ≤
        1/2/10 ^ tierExp "BTCUSDT" 20000 * 20000 * stop_loss_pct := by
  have hrm : regimeMultiplier "UNKNOWN" "BUY" [] = 1 := by decide
  refine ⟨?_, ?_,
    scalp_sizing_risk_budget RISK_CONFIG .STRICT 5000 20000 "BTCUSDT" "BUY" "UNKNOWN" []
      (by norm_num) (by norm_num) ?_ ?_⟩
  · rw [hrm]
    norm_num [RISK_CONFIG, tagConviction]
  · rw [hrm]
    norm_num [RISK_CONFIG, tagConviction, stop_loss_pct]
  · rw [hrm]
    norm_num [RISK_CONFIG, tagConviction, stop_loss_pct, effectiveLeverage]
  · rw [hrm]
    norm_num [RISK_CONFIG, tagConviction, stop_loss_pct]

end Danoo
